import Mathlib

/-!
Verification development for the `glass` image-resizing service
(`src/main.rs`, `src/server.rs`).

Modelling conventions:
* Rust `u32` values are modelled as `Nat`; the saturating float-to-`u32`
  cast (`as u32`) clamps into `[0, U32MAX]`.
* Rust `f64` is modelled by `F64`: an idealized IEEE double whose finite
  values are exact rationals (`nan`, `inf`, `neginf`, `finite q`); signed
  zeros are collapsed to `0`.  `f64::round` (round half away from zero)
  and the saturating `as u32` cast follow the Rust semantics on this model.
* External collaborators (filesystem open, image decoder, resampler,
  AVIF encoder) are passed in as explicit function parameters, mirroring
  the call sites in `main.rs`.
* A Rust `panic` (from `.unwrap()`) is a distinguished outcome
  `Outcome.panicked`, separate from returning an `Error` value.
* Pixel data is abstracted: a `Raster` carries its dimensions, which is
  all the stated claims depend on.
-/

/-- Maximal value of a Rust `u32`. -/
def U32MAX : Nat := 2 ^ 32 - 1

/-- Idealized `f64`: NaN, the two infinities, or an exact rational. -/
inductive F64 where
  | nan
  | inf
  | neginf
  | finite (q : ℚ)
deriving DecidableEq, Repr

/-- Embedding of `f64::from(n)` for a `u32` argument (exact). -/
def F64.ofNat (n : Nat) : F64 := .finite (n : ℚ)

/-- Multiplication on the idealized `f64`, following IEEE 754 special cases
(`inf * 0 = nan`, sign rules for infinities, NaN propagation). -/
def F64.mul : F64 → F64 → F64
  | .nan, _ => .nan
  | .inf, .nan | .neginf, .nan | .finite _, .nan => .nan
  | .inf, .inf => .inf
  | .inf, .neginf => .neginf
  | .neginf, .inf => .neginf
  | .neginf, .neginf => .inf
  | .inf, .finite b => if b = 0 then .nan else if 0 < b then .inf else .neginf
  | .neginf, .finite b => if b = 0 then .nan else if 0 < b then .neginf else .inf
  | .finite a, .inf => if a = 0 then .nan else if 0 < a then .inf else .neginf
  | .finite a, .neginf => if a = 0 then .nan else if 0 < a then .neginf else .inf
  | .finite a, .finite b => .finite (a * b)

/-- Division on the idealized `f64`, following IEEE 754 special cases
(`x / 0 = ±inf` for `x ≠ 0`, `0 / 0 = nan`, `a / ±inf = 0` with signed
zeros collapsed, NaN propagation). -/
def F64.div : F64 → F64 → F64
  | .nan, _ => .nan
  | .inf, .nan | .neginf, .nan | .finite _, .nan => .nan
  | .inf, .inf | .inf, .neginf | .neginf, .inf | .neginf, .neginf => .nan
  | .inf, .finite b => if 0 ≤ b then .inf else .neginf
  | .neginf, .finite b => if 0 ≤ b then .neginf else .inf
  | .finite _, .inf | .finite _, .neginf => .finite 0
  | .finite a, .finite b =>
      if b = 0 then (if a = 0 then .nan else if 0 < a then .inf else .neginf)
      else .finite (a / b)

/-- Rounding half away from zero on rationals: the semantics of Rust
`f64::round` on finite values. -/
def ratRound (q : ℚ) : ℤ :=
  if 0 ≤ q then ⌊q + 1 / 2⌋ else -⌊1 / 2 - q⌋

/-- Embedding of `f64::round`. -/
def F64.round : F64 → F64
  | .nan => .nan
  | .inf => .inf
  | .neginf => .neginf
  | .finite q => .finite (ratRound q)

/-- Embedding of the Rust saturating cast `as u32` on an `f64`: truncate
toward zero, clamp to `[0, U32MAX]`, NaN goes to `0`. -/
def F64.toU32 : F64 → Nat
  | .nan => 0
  | .inf => U32MAX
  | .neginf => 0
  | .finite q => if q < 0 then 0 else min U32MAX (Int.toNat ⌊q⌋)

/-- Embedding of `ResizeTo` (`main.rs`). -/
inductive ResizeTo where
  | Width (w : Nat)
  | Height (h : Nat)
  | WidthAndHeight (w h : Nat)
  | Scale (factor : F64)
deriving DecidableEq, Repr

/-- Embedding of `FilterType` (`main.rs`). -/
inductive FilterType where
  | Bilinear
  | Box
  | CatmullRom
  | Gaussian
  | Hamming
  | Lanczos3
  | Mitchell
deriving DecidableEq, Repr

/-- Embedding of `Config` (`main.rs`); `quality: f32` is modelled as an
exact rational, `speed: u8` as a `Nat`. -/
structure Config where
  quality : ℚ
  speed : Nat
  filter_type : FilterType
deriving DecidableEq, Repr

/-- Embedding of the error enum `Error` (`main.rs`). -/
inductive Error where
  | NotFound
  | FailedToResize (message : String)
deriving DecidableEq, Repr

/-- Kinds of `std::io::Error`, enough to distinguish a missing file from
a permission failure or any other I/O failure. -/
inductive IoErrorKind where
  | fileMissing
  | permissionDenied
  | other (description : String)
deriving DecidableEq, Repr

/-- Model of `std::io::Error` as its kind. -/
structure IoError where
  kind : IoErrorKind
deriving DecidableEq, Repr

/-- Model of `image::ImageError` as its `to_string()` rendering. -/
structure ImageError where
  message : String
deriving DecidableEq, Repr

/-- Embedding of `impl From<io::Error> for Error` (`main.rs`): the error
value is ignored and every I/O error becomes `NotFound`. -/
def Error.fromIoError (_error : IoError) : Error := .NotFound

/-- Embedding of `impl From<ImageError> for Error` (`main.rs`): every
decoder error becomes `FailedToResize` carrying its rendered message. -/
def Error.fromImageError (value : ImageError) : Error :=
  .FailedToResize value.message

/-- Decoded image; pixel data abstracted, dimensions kept. -/
structure Raster where
  width : Nat
  height : Nat
deriving DecidableEq, Repr

/-- Opened file prior to decoding (contents abstracted to a tag). -/
structure FileHandle where
  tag : Nat
deriving DecidableEq, Repr

/-- Encoded AVIF output (`ravif::EncodedImage`), bytes abstracted. -/
structure EncodedImage where
  avif_file : List Nat
deriving DecidableEq, Repr

/-- Result of running code that may return a value, return an `Error`, or
panic (Rust `.unwrap()` on an `Err`). -/
inductive Outcome (α : Type) where
  | ok (a : α)
  | err (e : Error)
  | panicked (message : String)
deriving DecidableEq, Repr

/-- Embedding of the source function computing the width-to-height
proportion (`aspect_ratio` in `main.rs`):
`f64::from(width) / f64::from(height)`. -/
def aspect_ratio_fn (width height : Nat) : F64 :=
  (F64.ofNat width).div (F64.ofNat height)

/-- Embedding of the dimension-resolution `match` inside `resize`
(`main.rs`, lines 264-285): maps the source dimensions and a `ResizeTo`
to the target `(width, height)` pair. -/
def resolve_dimensions (ow oh : Nat) (rto : ResizeTo) : Nat × Nat :=
  match rto with
  | .Width width =>
      let ar := aspect_ratio_fn ow oh
      let height := (((F64.ofNat width).div ar).round).toU32
      (width, height)
  | .Height height =>
      let ar := aspect_ratio_fn ow oh
      let width := (((F64.ofNat height).mul ar).round).toU32
      (width, height)
  | .WidthAndHeight width height => (width, height)
  | .Scale scale =>
      let width := (((F64.ofNat ow).mul scale).round).toU32
      let height := (((F64.ofNat oh).mul scale).round).toU32
      (width, height)

/-- Embedding of `load` (`main.rs`): `ImageReader::open(image)?.decode()?`
with `to_rgba8` normalization abstracted (it is infallible and preserves
dimensions).  `openFile` models the filesystem, `decode` the image
decoder. -/
def load (openFile : String → Except IoError FileHandle)
    (decode : FileHandle → Except ImageError Raster)
    (image : String) : Except Error Raster :=
  match openFile image with
  | .error e => .error (Error.fromIoError e)
  | .ok f =>
      match decode f with
      | .error e => .error (Error.fromImageError e)
      | .ok original => .ok original

/-- Embedding of `resize` (`main.rs`): resolve target dimensions, allocate
the destination image of exactly those dimensions, run the resampler
collaborator into it, and map a resampler failure to
`FailedToResize` with the collaborator message. -/
def resize (resampler : FilterType → Raster → Raster → Except String Unit)
    (original : Raster) (rto : ResizeTo) (filter_type : FilterType) :
    Except Error Raster :=
  let wh := resolve_dimensions original.width original.height rto
  let resized : Raster := ⟨wh.1, wh.2⟩
  match resampler filter_type original resized with
  | .error message => .error (.FailedToResize message)
  | .ok _ => .ok resized

/-- Embedding of `encode` (`main.rs`): the `ravif` encoder collaborator is
invoked and its result is `.unwrap()`-ed, so an encoder failure panics
instead of being returned as an `Error`. -/
def encode (encoder : Raster → ℚ → Nat → Except String EncodedImage)
    (image : Raster) (quality : ℚ) (speed : Nat) : Outcome EncodedImage :=
  match encoder image quality speed with
  | .error message => .panicked message
  | .ok res => .ok res

/-- Embedding of `load_resize_encode` (`main.rs`): the three stages run
strictly in order, the first `Error` aborts the rest, and an encoder
panic surfaces as a panic. -/
def load_resize_encode (openFile : String → Except IoError FileHandle)
    (decode : FileHandle → Except ImageError Raster)
    (resampler : FilterType → Raster → Raster → Except String Unit)
    (encoder : Raster → ℚ → Nat → Except String EncodedImage)
    (config : Config) (image : String) (rto : ResizeTo) :
    Outcome EncodedImage :=
  match load openFile decode image with
  | .error e => .err e
  | .ok original =>
      match resize resampler original rto config.filter_type with
      | .error e => .err e
      | .ok resized => encode encoder resized config.quality config.speed

/-- Embedding of the `Convert` argument match in `main` (`main.rs`, lines
179-187), mapping the optional `--width`, `--height`, `--scale` values to
a `ResizeTo` or the `bail!` usage error.  Note the source really does
build `ResizeTo::Height(width)` from a lone `--width` and
`ResizeTo::Width(height)` from a lone `--height`. -/
def convert_to (width height : Option Nat) (scale : Option F64) :
    Except String ResizeTo :=
  match width, height, scale with
  | some width, some height, none => .ok (.WidthAndHeight width height)
  | some width, none, none => .ok (.Height width)
  | none, some height, none => .ok (.Width height)
  | none, none, some scale => .ok (.Scale scale)
  | _, _, _ => .error "provide one or both of width and height, or only scale"

/-- Embedding of the `Command::Convert` branch of `main` (`main.rs`): the
argument match runs first and a usage error aborts before
`load_resize_encode` is invoked (so before any image I/O). -/
def convert_run (openFile : String → Except IoError FileHandle)
    (decode : FileHandle → Except ImageError Raster)
    (resampler : FilterType → Raster → Raster → Except String Unit)
    (encoder : Raster → ℚ → Nat → Except String EncodedImage)
    (config : Config) (image : String)
    (width height : Option Nat) (scale : Option F64) :
    Except String (Outcome EncodedImage) :=
  match convert_to width height scale with
  | .error e => .error e
  | .ok rto =>
      .ok (load_resize_encode openFile decode resampler encoder config image rto)

/-- Embedding of `Encoding` (declared at the crate root, used by
`server.rs`): the closed set of output encodings. -/
inductive Encoding where
  | Avif
  | Jpeg
deriving DecidableEq, Repr

/-- Embedding of `impl FromStr for Encoding` (`server.rs`, lines 46-57). -/
def Encoding.from_str (s : String) : Except Unit Encoding :=
  if s = "avif" then .ok .Avif
  else if s = "jpeg" then .ok .Jpeg
  else if s = "jpg" then .ok .Jpeg
  else .error ()

/-- Result of running an HTTP handler body: a value, or a panic of the
handler task. -/
inductive PanicOr (α : Type) where
  | ok (a : α)
  | panicked
deriving DecidableEq, Repr

/-- Embedding of the handler `h_w` (`server.rs`, lines 107-119): join the
image path, then evaluate `encoding.parse().unwrap()` — which panics on
an unrecognized selector — before handing off to the pipeline
(`crate::load_resize_encode`, abstracted as `pipeline` since its
encoding-aware variant is not under `src/`). -/
def server_h_w {α : Type} (pipeline : String → Encoding → ResizeTo → α)
    (images image : String) (width : Nat) (encoding : String) :
    PanicOr α :=
  let path := images ++ "/" ++ image
  match Encoding.from_str encoding with
  | .error _ => .panicked
  | .ok enc => .ok (pipeline path enc (.Width width))

/-- Embedding of `impl IntoResponse for Error` (`main.rs` / `server.rs`):
the HTTP status code each error maps to. -/
def Error.statusCode : Error → Nat
  | .NotFound => 404
  | .FailedToResize _ => 500

/-- Specification-side rounding policy, written from the words of the
spec: round half away from zero applied to the (exact) result, then
truncation to a `u32` (saturating).  Compared against the rounding the
code performs. -/
def specRoundToU32 (q : ℚ) : Nat :=
  let z := ratRound q
  if z < 0 then 0 else min U32MAX z.toNat

/-- Test collaborator: a filesystem on which every open succeeds. -/
def openOk : String → Except IoError FileHandle := fun _ => .ok ⟨0⟩

/-- Test collaborator: a filesystem on which every open fails with the
given I/O error. -/
def openFail (e : IoError) : String → Except IoError FileHandle :=
  fun _ => .error e

/-- Test collaborator: a decoder that always yields the given raster. -/
def decodeTo (r : Raster) : FileHandle → Except ImageError Raster :=
  fun _ => .ok r

/-- Test collaborator: a decoder that always fails with the given
message. -/
def decodeFail (msg : String) : FileHandle → Except ImageError Raster :=
  fun _ => .error ⟨msg⟩

/-- Test collaborator: a resampler that always succeeds. -/
def resamplerOk : FilterType → Raster → Raster → Except String Unit :=
  fun _ _ _ => .ok ()

/-- Test collaborator: a resampler that always fails with the given
diagnostic. -/
def resamplerFail (msg : String) : FilterType → Raster → Raster → Except String Unit :=
  fun _ _ _ => .error msg

/-- Test collaborator: an encoder that always yields the given output. -/
def encoderConst (out : EncodedImage) : Raster → ℚ → Nat → Except String EncodedImage :=
  fun _ _ _ => .ok out

/-- Test collaborator: an encoder that always fails with the given
diagnostic. -/
def encoderFail (msg : String) : Raster → ℚ → Nat → Except String EncodedImage :=
  fun _ _ _ => .error msg

/-- The default configuration of `main.rs` (`--quality 90 --speed 4
--filter lanczos3`). -/
def defaultConfig : Config := ⟨90, 4, .Lanczos3⟩

theorem F64.mul_finite (a b : ℚ) :
    F64.mul (.finite a) (.finite b) = .finite (a * b) := by
  simp [F64.mul]

theorem F64.div_finite (a b : ℚ) (hb : b ≠ 0) :
    F64.div (.finite a) (.finite b) = .finite (a / b) := by
  simp [F64.div, hb]

theorem F64.round_finite_toU32 (q : ℚ) :
    ((F64.finite q).round).toU32 = specRoundToU32 q := by
  simp [F64.round, F64.toU32, specRoundToU32]

theorem ratRound_nonpos (q : ℚ) (h : q ≤ 0) : ratRound q ≤ 0 := by
  unfold ratRound
  split
  · have hq : q = 0 := le_antisymm h (by assumption)
    subst hq
    have h1 : ((0 : ℚ) + 1 / 2) < ((0 : ℤ) : ℚ) + 1 := by norm_num
    have := (Int.floor_le_iff (α := ℚ)).2 h1
    simpa using this
  · have h2 : (0 : ℚ) ≤ 1 / 2 - q := by linarith
    have := (Int.le_floor (α := ℚ) (z := 0)).2 (by exact_mod_cast h2)
    omega

theorem specRoundToU32_nonpos (q : ℚ) (h : q ≤ 0) : specRoundToU32 q = 0 := by
  have := ratRound_nonpos q h
  simp only [specRoundToU32]
  split
  · rfl
  · have hz : ratRound q = 0 := by omega
    simp [hz]

theorem specRoundToU32_sat (q : ℚ) (h : (U32MAX : ℤ) < ratRound q) :
    specRoundToU32 q = U32MAX := by
  simp only [specRoundToU32]
  split
  · omega
  · have hle : U32MAX ≤ (ratRound q).toNat := by omega
    exact min_eq_left hle

theorem F64.mul_neginf_toU32 (n : Nat) :
    (((F64.finite (n : ℚ)).mul .neginf).round).toU32 = 0 := by
  rcases Nat.eq_zero_or_pos n with h | h
  · subst h
    simp [F64.mul, F64.round, F64.toU32]
  · have h0 : (0 : ℚ) < (n : ℚ) := by exact_mod_cast h
    simp [F64.mul, F64.round, F64.toU32, h0.ne', h0]

/-- C1: for every source raster with positive width `sw` and height `sh`
the dimension resolver returns, for `Width(w)`, the pair
`(w, round(w * sh / sw))`; for `Height(h)` the pair `(round(h * sw / sh), h)`;
for `WidthAndHeight(w, h)` the pair verbatim; and for a finite `Scale(f)`
the pair `(round(sw * f), round(sh * f))`, where the rounding policy is
round half away from zero followed by truncation to a `u32`
(`specRoundToU32`, written from the words of the spec). -/
theorem dimension_resolver_matches_spec (sw sh : Nat) (hsw : 0 < sw) (hsh : 0 < sh) :
    (∀ w, resolve_dimensions sw sh (.Width w) = (w, specRoundToU32 ((w : ℚ) * sh / sw))) ∧
    (∀ h, resolve_dimensions sw sh (.Height h) = (specRoundToU32 ((h : ℚ) * sw / sh), h)) ∧
    (∀ w h, resolve_dimensions sw sh (.WidthAndHeight w h) = (w, h)) ∧
    (∀ q : ℚ, resolve_dimensions sw sh (.Scale (.finite q)) =
      (specRoundToU32 ((sw : ℚ) * q), specRoundToU32 ((sh : ℚ) * q))) := by
  have hsw' : (sw : ℚ) ≠ 0 := Nat.cast_ne_zero.2 hsw.ne'
  have hsh' : (sh : ℚ) ≠ 0 := Nat.cast_ne_zero.2 hsh.ne'
  have har : aspect_ratio_fn sw sh = .finite ((sw : ℚ) / sh) :=
    F64.div_finite _ _ hsh'
  have hne : (sw : ℚ) / sh ≠ 0 := div_ne_zero hsw' hsh'
  refine ⟨fun w => ?_, fun h => ?_, fun w h => rfl, fun q => ?_⟩
  · simp only [resolve_dimensions, har, F64.ofNat, F64.div_finite _ _ hne,
      F64.round_finite_toU32]
    rw [div_div_eq_mul_div]
  · simp only [resolve_dimensions, har, F64.ofNat, F64.mul_finite,
      F64.round_finite_toU32]
    rw [← mul_div_assoc]
  · simp only [resolve_dimensions, F64.ofNat, F64.mul_finite,
      F64.round_finite_toU32]

/-- C1 witness: the resolver on a 4000 by 3000 source with `Width(1000)`
matches the spec formula. -/
theorem dimension_resolver_matches_spec_witness :
    0 < 4000 ∧ 0 < 3000 ∧
    resolve_dimensions 4000 3000 (.Width 1000) =
      (1000, specRoundToU32 ((1000 : ℚ) * 3000 / 4000)) :=
  ⟨by norm_num, by norm_num,
    (dimension_resolver_matches_spec 4000 3000 (by norm_num) (by norm_num)).1 1000⟩

/-- C2 counterexample: with a filesystem on which the open succeeds and a
decoder that fails, `load` returns `FailedToResize` carrying the decoder
message — not the `NotFound` the claim requires for undecodable files. -/
theorem decode_failure_not_notfound :
    load openOk (decodeFail "decoding failed") "img.png" =
      .error (.FailedToResize "decoding failed") ∧
    Error.FailedToResize "decoding failed" ≠ Error.NotFound :=
  ⟨rfl, by decide⟩

/-- C2 amended: `load` fails with `NotFound` when the open fails with any
I/O error (mapped to HTTP 404); a file that opens but fails to decode
yields `FailedToResize` carrying the decoder diagnostic (mapped to
HTTP 500), not `NotFound`. -/
theorem load_error_classification :
    (∀ (e : IoError) (decode : FileHandle → Except ImageError Raster) (img : String),
      load (openFail e) decode img = .error .NotFound) ∧
    (∀ (openF : String → Except IoError FileHandle) (f : FileHandle) (msg img : String),
      openF img = .ok f →
      load openF (decodeFail msg) img = .error (.FailedToResize msg)) ∧
    Error.statusCode .NotFound = 404 ∧
    (∀ msg, Error.statusCode (.FailedToResize msg) = 500) := by
  refine ⟨fun _ _ _ => rfl, fun openF f msg img hopen => ?_, rfl, fun _ => rfl⟩
  simp [load, hopen, decodeFail, Error.fromImageError]

/-- C2 amended witness: a decode failure on an openable file surfaces as
`FailedToResize`. -/
theorem load_error_classification_witness :
    openOk "img.png" = .ok ⟨0⟩ ∧
    load openOk (decodeFail "bad data") "img.png" = .error (.FailedToResize "bad data") :=
  ⟨rfl, load_error_classification.2.1 openOk ⟨0⟩ "bad data" "img.png" rfl⟩

/-- C3: the `Convert` branch of `main` builds `ResizeTo::Height(W)` from a
lone `--width W` and `ResizeTo::Width(H)` from a lone `--height H` — the
constructors are swapped relative to the claim (and to the HTTP handlers
`h_w`/`h_h` in the same file).  On a 4000 by 3000 source, `--width 1000`
therefore resolves to a 1333 by 1000 target instead of the claimed
1000 by 750. -/
theorem convert_cli_swaps_width_height :
    convert_to (some 1000) none none = .ok (.Height 1000) ∧
    convert_to none (some 750) none = .ok (.Width 750) ∧
    resolve_dimensions 4000 3000 (.Height 1000) = (1333, 1000) ∧
    resolve_dimensions 4000 3000 (.Width 1000) = (1000, 750) :=
  ⟨rfl, rfl, by with_unfolding_all decide, by with_unfolding_all decide⟩

/-- C4 counterexample: for `WidthAndHeight(0, 100)` the whole pipeline
runs and succeeds — every stage executes and no validation error is
raised — and a derived dimension that rounds to 0 (`Width(1)` on a
1000 by 100 source) is likewise passed straight to the resampler as a
zero-height target raster. -/
theorem zero_dimension_no_validation :
    load_resize_encode openOk (decodeTo ⟨200, 100⟩) resamplerOk
      (encoderConst ⟨[7]⟩) defaultConfig "img.png" (.WidthAndHeight 0 100) = .ok ⟨[7]⟩ ∧
    resolve_dimensions 1000 100 (.Width 1) = (1, 0) ∧
    resize resamplerOk ⟨1000, 100⟩ (.Width 1) .Lanczos3 = .ok ⟨1, 0⟩ :=
  ⟨rfl, by with_unfolding_all decide, by with_unfolding_all rfl⟩

/-- C4 amended: the code performs no dimension validation at all — for
every target, zero dimensions included, whenever the resampler
collaborator succeeds on the allocated target raster, `resize` succeeds
and returns a raster of exactly the resolved dimensions. -/
theorem resize_no_dimension_validation
    (resampler : FilterType → Raster → Raster → Except String Unit)
    (orig : Raster) (rto : ResizeTo) (ft : FilterType)
    (hok : resampler ft orig
      ⟨(resolve_dimensions orig.width orig.height rto).1,
       (resolve_dimensions orig.width orig.height rto).2⟩ = .ok ()) :
    resize resampler orig rto ft =
      .ok ⟨(resolve_dimensions orig.width orig.height rto).1,
           (resolve_dimensions orig.width orig.height rto).2⟩ := by
  simp only [resize, hok]

/-- C4 amended witness: resizing to an explicit zero width succeeds with
a zero-width raster when the resampler succeeds. -/
theorem resize_no_dimension_validation_witness :
    resamplerOk .Lanczos3 ⟨200, 100⟩ ⟨0, 100⟩ = .ok () ∧
    resize resamplerOk ⟨200, 100⟩ (.WidthAndHeight 0 100) .Lanczos3 = .ok ⟨0, 100⟩ :=
  ⟨rfl, resize_no_dimension_validation resamplerOk ⟨200, 100⟩
    (.WidthAndHeight 0 100) .Lanczos3 rfl⟩

/-- C5 counterexample: an encoder failure does not come back as
`FailedToResize` — the pipeline panics with the encoder diagnostic
(`encode` unwraps the encoder result). -/
theorem encoder_failure_panics :
    load_resize_encode openOk (decodeTo ⟨200, 100⟩) resamplerOk
      (encoderFail "encoder exploded") defaultConfig "img.png" (.WidthAndHeight 100 50) =
      .panicked "encoder exploded" ∧
    (Outcome.panicked "encoder exploded" : Outcome EncodedImage) ≠
      .err (.FailedToResize "encoder exploded") :=
  ⟨rfl, by decide⟩

/-- C5 amended: a resampler failure is returned as `FailedToResize`
carrying the collaborator diagnostic verbatim, but an encoder failure is
unwrapped and panics the pipeline instead of being returned as an error
value. -/
theorem resample_encode_failure_mapping :
    (∀ (msg : String) (orig : Raster) (rto : ResizeTo) (ft : FilterType),
      resize (resamplerFail msg) orig rto ft = .error (.FailedToResize msg)) ∧
    (∀ (msg : String) (img : Raster) (q : ℚ) (s : Nat),
      encode (encoderFail msg) img q s = .panicked msg) ∧
    (∀ (msg : String) (rto : ResizeTo) (cfg : Config) (img : String) (r : Raster),
      load_resize_encode openOk (decodeTo r) resamplerOk (encoderFail msg) cfg img rto =
        .panicked msg) :=
  ⟨fun _ _ _ _ => rfl, fun _ _ _ _ => rfl, fun _ _ _ _ _ => rfl⟩

/-- C6 counterexample: the selector string `webp` is rejected by
`from_str`, but the handler `h_w` unwraps the parse result and panics —
it does not produce a rejection response. -/
theorem unknown_encoding_panics_handler :
    Encoding.from_str "webp" = .error () ∧
    server_h_w (fun _ _ _ => (Except.error .NotFound : Except Error Unit))
      "images" "cat.png" 100 "webp" = .panicked :=
  ⟨rfl, rfl⟩

/-- C6 amended: `from_str` maps `avif` to `Avif` and both `jpeg` and
`jpg` to `Jpeg` and rejects every other string, but the HTTP handler
unwraps the parse result, so an unrecognized selector panics the handler
task rather than yielding a rejection response; the pipeline still never
runs in that case. -/
theorem encoding_parse_behavior :
    Encoding.from_str "avif" = .ok .Avif ∧
    Encoding.from_str "jpeg" = .ok .Jpeg ∧
    Encoding.from_str "jpg" = .ok .Jpeg ∧
    (∀ s : String, s ≠ "avif" → s ≠ "jpeg" → s ≠ "jpg" → Encoding.from_str s = .error ()) ∧
    (∀ {α : Type} (pipeline : String → Encoding → ResizeTo → α)
       (images image : String) (w : Nat) (s : String),
      Encoding.from_str s = .error () →
      server_h_w pipeline images image w s = .panicked) := by
  refine ⟨rfl, rfl, rfl, fun s h1 h2 h3 => ?_, ?_⟩
  · simp [Encoding.from_str, h1, h2, h3]
  · intro α pipeline images image w s hs
    simp [server_h_w, hs]

/-- C6 amended witness: the selector `webp` is rejected by the parser and
panics the handler. -/
theorem encoding_parse_behavior_witness :
    "webp" ≠ "avif" ∧ Encoding.from_str "webp" = .error () ∧
    server_h_w (fun _ _ _ => (Except.ok () : Except Error Unit))
      "images" "dog.png" 5 "webp" = .panicked :=
  ⟨by decide, encoding_parse_behavior.2.2.2.1 "webp" (by decide) (by decide) (by decide),
    encoding_parse_behavior.2.2.2.2 (fun _ _ _ => (Except.ok () : Except Error Unit))
      "images" "dog.png" 5 "webp"
      (encoding_parse_behavior.2.2.2.1 "webp" (by decide) (by decide) (by decide))⟩

/-- C7: supplying `--scale` together with `--width` or `--height` makes
the `Convert` command fail with the usage error before any image I/O —
the result is the same usage error for every filesystem, decoder,
resampler and encoder collaborator, so the source file is never
consulted. -/
theorem convert_scale_conflict_usage_error
    (openF : String → Except IoError FileHandle)
    (decode : FileHandle → Except ImageError Raster)
    (resampler : FilterType → Raster → Raster → Except String Unit)
    (encoder : Raster → ℚ → Nat → Except String EncodedImage)
    (cfg : Config) (img : String) (w h : Option Nat) (f : F64)
    (hwh : w ≠ none ∨ h ≠ none) :
    convert_run openF decode resampler encoder cfg img w h (some f) =
      .error "provide one or both of width and height, or only scale" := by
  rcases w with _ | a
  · rcases h with _ | b
    · rcases hwh with h1 | h1 <;> exact absurd rfl h1
    · rfl
  · rcases h with _ | b <;> rfl

/-- C7 witness: `--width 100 --scale 2` is a usage error. -/
theorem convert_scale_conflict_usage_error_witness :
    ((some 100 : Option Nat) ≠ none ∨ (none : Option Nat) ≠ none) ∧
    convert_run openOk (decodeTo ⟨1, 1⟩) resamplerOk (encoderConst ⟨[]⟩)
      defaultConfig "img.png" (some 100) none (some (.finite 2)) =
      .error "provide one or both of width and height, or only scale" :=
  ⟨Or.inl (by decide), convert_scale_conflict_usage_error openOk (decodeTo ⟨1, 1⟩)
    resamplerOk (encoderConst ⟨[]⟩) defaultConfig "img.png" (some 100) none (.finite 2)
    (Or.inl (by decide))⟩

/-- C9: every I/O error raised while opening the source — the permission
failure included — is converted to `NotFound` (HTTP 404), so the caller
cannot distinguish an unreadable file from a missing one. -/
theorem io_errors_collapse_to_notfound :
    (∀ e : IoError, Error.fromIoError e = .NotFound) ∧
    (∀ e e' : IoError, Error.fromIoError e = Error.fromIoError e') ∧
    Error.fromIoError ⟨.permissionDenied⟩ = .NotFound ∧
    Error.fromIoError ⟨.fileMissing⟩ = .NotFound ∧
    (∀ (e : IoError) (decode : FileHandle → Except ImageError Raster) (img : String),
      load (openFail e) decode img = .error .NotFound) ∧
    Error.statusCode (Error.fromIoError ⟨.permissionDenied⟩) = 404 :=
  ⟨fun _ => rfl, fun _ _ => rfl, rfl, rfl, fun _ _ _ => rfl, rfl⟩

/-- C10: the `Scale` resolution is total over the idealized `f64` and
never rejects: NaN, negative infinity and every factor at most 0 resolve
to `(0, 0)`; a factor whose rounded product exceeds `u32::MAX` saturates
to `u32::MAX`; and the resulting dimensions — zero or huge — are passed
to the resize stage, which succeeds without any validation error
whenever the resampler does. -/
theorem scale_resolution_saturates (sw sh : Nat) :
    (resolve_dimensions sw sh (.Scale .nan) = (0, 0)) ∧
    (resolve_dimensions sw sh (.Scale .neginf) = (0, 0)) ∧
    (∀ q : ℚ, q ≤ 0 → resolve_dimensions sw sh (.Scale (.finite q)) = (0, 0)) ∧
    (∀ q : ℚ, (U32MAX : ℤ) < ratRound ((sw : ℚ) * q) →
      (resolve_dimensions sw sh (.Scale (.finite q))).1 = U32MAX) ∧
    (∀ q : ℚ, (U32MAX : ℤ) < ratRound ((sh : ℚ) * q) →
      (resolve_dimensions sw sh (.Scale (.finite q))).2 = U32MAX) ∧
    (∀ (f : F64) (orig : Raster) (ft : FilterType),
      resize resamplerOk orig (.Scale f) ft =
        .ok ⟨(resolve_dimensions orig.width orig.height (.Scale f)).1,
             (resolve_dimensions orig.width orig.height (.Scale f)).2⟩) := by
  refine ⟨?_, ?_, fun q hq => ?_, fun q hq => ?_, fun q hq => ?_, fun f orig ft => rfl⟩
  · simp [resolve_dimensions, F64.ofNat, F64.mul, F64.round, F64.toU32]
  · simp [resolve_dimensions, F64.ofNat, F64.mul_neginf_toU32]
  · have h1 : (sw : ℚ) * q ≤ 0 := mul_nonpos_of_nonneg_of_nonpos (Nat.cast_nonneg sw) hq
    have h2 : (sh : ℚ) * q ≤ 0 := mul_nonpos_of_nonneg_of_nonpos (Nat.cast_nonneg sh) hq
    simp [resolve_dimensions, F64.ofNat, F64.mul_finite, F64.round_finite_toU32,
      specRoundToU32_nonpos _ h1, specRoundToU32_nonpos _ h2]
  · simp [resolve_dimensions, F64.ofNat, F64.mul_finite, F64.round_finite_toU32,
      specRoundToU32_sat _ hq]
  · simp [resolve_dimensions, F64.ofNat, F64.mul_finite, F64.round_finite_toU32,
      specRoundToU32_sat _ hq]

/-- C10 witness: a negative factor resolves to `(0, 0)` and a factor of
`2 ^ 40` on a 1 by 1 source saturates the width at `u32::MAX`. -/
theorem scale_resolution_saturates_witness :
    ((-3 : ℚ) ≤ 0 ∧ resolve_dimensions 200 100 (.Scale (.finite (-3))) = (0, 0)) ∧
    ((U32MAX : ℤ) < ratRound ((1 : ℕ) * (2 ^ 40 : ℚ)) ∧
      (resolve_dimensions 1 1 (.Scale (.finite (2 ^ 40)))).1 = U32MAX) :=
  ⟨⟨by norm_num, (scale_resolution_saturates 200 100).2.2.1 (-3) (by norm_num)⟩,
   ⟨by with_unfolding_all decide,
    (scale_resolution_saturates 1 1).2.2.2.1 (2 ^ 40) (by with_unfolding_all decide)⟩⟩
